import Mathlib

/-!
# OpenFOAM unit-testing harness: driver, time-path override and test body

A shallow embedding of

* `tests/testsTestDriver.C` (the test session driver `main`),
* `include/testMacros.H` (`prepareTimePaths`, `modifyTimePaths`, `resetMeshPointer`),
* `include/createTestTime.H` (the shared time fixture),
* `tests/serialParallelTests/serialParalleTest.C` (the test-case body),

followed by the properties proved about them.  The Catch2 session, the OpenFOAM library and
the MPI runtime are external: their results enter the embedding as parameters, their calls
leave it as logged events.
-/

namespace FoamUT

/-! ## Test session driver (`tests/testsTestDriver.C`) -/

/-- Calls issued by the driver on the process-group communication runtime. -/
inductive CommCall where
  /-- The call `Foam::Pstream::init(argc, argv, 0)`. -/
  | init (argv : List String) (needsThread : Bool)
  /-- The call `MPI_Finalize()`. -/
  | finalize
deriving DecidableEq, Repr

/-- Recognises an `init` call. -/
def CommCall.isInit : CommCall → Bool
  | .init _ _ => true
  | .finalize => false

/-- Recognises a `finalize` call. -/
def CommCall.isFinalize : CommCall → Bool
  | .init _ _ => false
  | .finalize => true

/-- The Catch2 session as `main` uses it.  `applyCommandLine argv` yields the integer result of
`session.applyCommandLine(argc, argv)` together with the value the parser leaves in the bound
variable `inParallel` (initialised to `false`, set by the `-p` / `--parallel` option).
`run argv comm` is the way the call `session.run()` ends: `some err` when it returns the
integer `err`, `none` when it is left by an exception.  It may depend on the parsed arguments
and on the communication calls made before it. -/
structure Session where
  applyCommandLine : List String → Int × Bool
  run : List String → List CommCall → Option Int

/-- What one execution of `main` did: the settings it applied, the communication calls it
issued (in order), whether `session.run()` was invoked, and how `main` was left: `some code`
when it returned `code`, `none` when an exception propagated out of it. -/
structure Execution where
  /-- The value stored by `Foam::Warning.level = 0`. -/
  warningLevel : Nat
  /-- The mode set by `Foam::FatalError.throwExceptions()`. -/
  throwExceptions : Bool
  comm : List CommCall
  ranTests : Bool
  exitCode : Option Int
deriving DecidableEq, Repr

/-- The driver `main(argc, argv)` of `tests/testsTestDriver.C`.  The body is straight-line
code without a handler or a scope guard, so an exception raised by `session.run()` propagates
out of `main` and nothing after line 44 is executed. -/
def main (session : Session) (argv : List String) : Execution :=
  let parsed := session.applyCommandLine argv
  let result := parsed.1
  let inParallel := parsed.2
  -- if (result != 0) return result;
  if result ≠ 0 then
    ⟨0, true, [], false, some result⟩
  else
    -- if (inParallel) Foam::Pstream::init(argc, argv, 0);
    let comm₁ := if inParallel then [CommCall.init argv false] else []
    -- auto err = session.run();
    match session.run argv comm₁ with
    | none => ⟨0, true, comm₁, true, none⟩
    | some err =>
      -- if (inParallel) MPI_Finalize();
      let comm₂ := if inParallel then comm₁ ++ [CommCall.finalize] else comm₁
      -- return err;
      ⟨0, true, comm₂, true, some err⟩

/-- A session whose command-line parser rejects every argument vector with the non-zero
code 255, and whose run loop would report success. -/
def rejectingSession : Session :=
  ⟨fun _ => (255, false), fun _ _ => some 0⟩

/-- A session that accepts every argument vector, sets the parallel flag exactly when `-p` is
among the arguments, and whose run loop reports `3`. -/
def sampleSession : Session :=
  ⟨fun argv => (0, decide ("-p" ∈ argv)), fun _ _ => some 3⟩

/-- A session that accepts every argument vector, sets the parallel flag exactly when `-p` is
among the arguments, and whose run loop is left by an exception. -/
def throwingSession : Session :=
  ⟨fun argv => (0, decide ("-p" ∈ argv)), fun _ _ => none⟩

/-! ## Time fixture and path override (`include/createTestTime.H`, `include/testMacros.H`) -/

/-- The path record of an OpenFOAM `Time` object (its `TimePaths` base): the two private fields
the harness rewrites, `processorCase_` and `case_`, and the remaining path components set by
the constructor call in `createTestTime.H`.  File names and words are strings. -/
structure TimePaths where
  processorCase_ : Bool
  rootPath_ : String
  case_ : String
  system_ : String
  constant_ : String
deriving DecidableEq, Repr

/-- The default `ROOT_CASEPATH` of `createTestTime.H`, `fileName("")`. -/
def ROOT_CASEPATH : String := ""

/-- The default `ROOT_CASENAME` of `createTestTime.H`, `fileName("")`. -/
def ROOT_CASENAME : String := ""

/-- The fixture declared by `createTestTime.H`:
`Time runTime(controlDictName, ROOT_CASEPATH, ROOT_CASENAME, "system", "constant", false)`.
The trailing `false` of the source switches function objects off and is not a path component.
The library constructor starts `processorCase_` at `false`; the case name given here does not
name a processor directory, so the flag keeps that value. -/
def runTime : TimePaths :=
  ⟨false, ROOT_CASEPATH, ROOT_CASENAME, "system", "constant"⟩

/-- Modelled from the spec: `memberStealer.H` is not among the sources.  A Field Descriptor
identifies one private field by field name, declared field type and enclosing type, the three
arguments of `SPECIALIZE_MEMBER_STEALER`. -/
structure FieldDescriptor where
  member : String
  declaredType : String
  enclosing : String
deriving DecidableEq, Repr

/-- Modelled from the spec: `memberStealer.H` is not among the sources.  An Accessor Token,
applied to a live instance of the enclosing type, yields a mutable reference to the targeted
field: a read of the field and a write that replaces it, equivalent in effect to friend
access.  One token is generated per descriptor. -/
structure Accessor (σ α : Type) where
  descriptor : FieldDescriptor
  read : σ → α
  write : σ → α → σ

/-- Modelled from the spec: `SPECIALIZE_MEMBER_STEALER(case_, fileName, TimePaths)`. -/
def stealCase : Accessor TimePaths String :=
  ⟨⟨"case_", "fileName", "TimePaths"⟩, fun t => t.case_, fun t v => { t with case_ := v }⟩

/-- Modelled from the spec: `SPECIALIZE_MEMBER_STEALER(processorCase_, bool, TimePaths)`. -/
def stealProcessorCase : Accessor TimePaths Bool :=
  ⟨⟨"processorCase_", "bool", "TimePaths"⟩, fun t => t.processorCase_,
    fun t v => { t with processorCase_ := v }⟩

/-- The macro `prepareTimePaths()` of `testMacros.H`: the two specialisations it expands to,
in source order. -/
def prepareTimePaths : Accessor TimePaths String × Accessor TimePaths Bool :=
  (stealCase, stealProcessorCase)

/-- The descriptors of the accessors opened by `prepareTimePaths()`. -/
def preparedDescriptors : List FieldDescriptor :=
  [prepareTimePaths.1.descriptor, prepareTimePaths.2.descriptor]

/-- The macro `modifyTimePaths(timeName, newProcessorCase, newCaseName)` of `testMacros.H`:
`GET_REF(processorCase_, TimePaths, timeName) = newProcessorCase;` followed by
`GET_REF(case_, TimePaths, timeName) = newCaseName`. -/
def modifyTimePaths (timeName : TimePaths) (newProcessorCase : Bool) (newCaseName : String) :
    TimePaths :=
  let t₁ := prepareTimePaths.2.write timeName newProcessorCase
  prepareTimePaths.1.write t₁ newCaseName

/-- The library function `Foam::name` on a rank id: its decimal representation. -/
def name (val : Nat) : String := Nat.repr val

/-- The per-process subdirectory name built in the test body:
`word procPath = "processor" + Foam::name(Pstream::myProcNo())`. -/
def procPath (myProcNo : Nat) : String := "processor" ++ name myProcNo

/-- The path-override step that opens the test body (lines 50 to 55):
`if (Pstream::parRun()) { procPath = ...; modifyTimePaths(runTime, true, procPath); }`. -/
def pathOverrideStep (parRun : Bool) (myProcNo : Nat) (time : TimePaths) : TimePaths :=
  if parRun then modifyTimePaths time true (procPath myProcNo) else time

/-- Value of a decimal digit character. -/
def digitValue (c : Char) : Nat := c.toNat - 48

/-- Reads a list of decimal digit characters, most significant first, onto `start`. -/
def decimalValue (cs : List Char) (start : Nat) : Nat :=
  cs.foldl (fun a c => 10 * a + digitValue c) start

/-! ## Mesh slot and test body (`testMacros.H`, `serialParalleTest.C`) -/

/-- The part of an `fvMesh` the test body observes: its local cell count. -/
structure fvMesh where
  nCells : Nat
deriving DecidableEq, Repr

/-- The single-owner replaceable slot `autoPtr<T>`: empty, or holding one object. -/
abbrev autoPtr (α : Type) := Option α

/-- The member `autoPtr::reset(p)`: the slot takes ownership of `p`, deleting what it held. -/
def autoPtr.reset {α : Type} (_slot : autoPtr α) (p : α) : autoPtr α := some p

/-- The member `autoPtr::clear()`: deletes what the slot holds and leaves it empty. -/
def autoPtr.clear {α : Type} (_slot : autoPtr α) : autoPtr α := none

/-- The constant `fvMesh::defaultRegion`. -/
def defaultRegion : String := "region0"

/-- The macro `resetMeshPointer(timeObj, meshPtr, meshClass, region)` of `testMacros.H`:
`meshPtr.reset(new meshClass(IOobject(region, timeObj.timeName(), timeObj, MUST_READ)))`.
`readMesh timeObj region` is the outcome of the `MUST_READ` construction from the paths
recorded on `timeObj`: the mesh found there, or `none` when the read raises a fatal error,
which the driver has turned into an exception.  The construction is evaluated before `reset`
is called, so an exception leaves the slot as it was. -/
def resetMeshPointer (readMesh : TimePaths → String → Option fvMesh) (timeObj : TimePaths)
    (meshPtr : autoPtr fvMesh) (region : String) : Except Unit (autoPtr fvMesh) :=
  match readMesh timeObj region with
  | none => .error ()
  | some mesh => .ok (autoPtr.reset meshPtr mesh)

/-- Collective operations issued by the test body on the process group. -/
inductive Collective where
  /-- The call `returnReduce(mesh.nCells(), sumOp<label>())` with its local operand. -/
  | returnReduceSum (localCells : Nat)
  /-- The reduction inside `gMax(vf)`. -/
  | gMax
  /-- The reduction inside `gMin(vf)`. -/
  | gMin
deriving DecidableEq, Repr

/-- Recognises the cell-count reduction. -/
def Collective.isCellCountReduction : Collective → Bool
  | .returnReduceSum _ => true
  | _ => false

/-- How one entry of the test body was left. -/
inductive Outcome where
  /-- The end of the body was reached. -/
  | completed
  /-- The mesh construction raised a fatal error (an exception). -/
  | fatalError
  /-- A `REQUIRE` failed: Catch2 aborts the test case by throwing out of the body. -/
  | requireFailed (expression : String)
deriving DecidableEq, Repr

/-- The state shared between entries of the test body: the namespace-scope time object and the
mesh slot `meshPtr`. -/
structure Fixtures where
  runTime : TimePaths
  meshPtr : autoPtr fvMesh
deriving DecidableEq, Repr

/-- Everything one entry of the test body receives from outside: the process topology, the
case on disk, the contribution of the other ranks to the reductions, the sections the engine
opens on this entry and the value produced by `GENERATE(range(1,4))`. -/
structure Entry where
  parRun : Bool
  myProcNo : Nat
  readMesh : TimePaths → String → Option fvMesh
  /-- Sum of `mesh.nCells()` over the other ranks of the group. -/
  remoteCells : Nat
  enterDecomposedMesh : Bool
  enterVolumeField : Bool
  param : Int
  /-- Result of `gMax(vf)` on this entry. -/
  gMaxVf : Int
  /-- Result of `gMin(vf)` on this entry. -/
  gMinVf : Int

/-- The values enumerated by `GENERATE(range(1,4))`. -/
def generatedParams : List Int := [1, 2, 3]

/-- Result of running a section: the collectives issued and the failed `REQUIRE`, if any. -/
structure SectionRun where
  collectives : List Collective
  failed : Option String
deriving DecidableEq, Repr

/-- The body of `SECTION("Decomposed mesh in parallel runs")` (lines 67 to 82). -/
def decomposedMeshSection (parRun : Bool) (mesh : fvMesh) (remoteCells : Nat) : SectionRun :=
  if parRun then
    -- label gNCells = returnReduce(mesh.nCells(), sumOp<label>());
    let gNCells := mesh.nCells + remoteCells
    -- REQUIRE(mesh.nCells() < gNCells);
    if mesh.nCells < gNCells then
      ⟨[Collective.returnReduceSum mesh.nCells], none⟩
    else
      ⟨[Collective.returnReduceSum mesh.nCells], some "mesh.nCells() < gNCells"⟩
  else
    ⟨[], none⟩

/-- The body of `SECTION("Volume field creation")` (lines 93 to 100). -/
def volumeFieldSection (param gMaxVf gMinVf : Int) : SectionRun :=
  -- REQUIRE(gMax(vf) == param);
  if gMaxVf = param then
    -- REQUIRE(gMin(vf) == param);
    if gMinVf = param then
      ⟨[Collective.gMax, Collective.gMin], none⟩
    else
      ⟨[Collective.gMax, Collective.gMin], some "gMin(vf) == param"⟩
  else
    ⟨[Collective.gMax], some "gMax(vf) == param"⟩

/-- What one entry of the test body leaves behind. -/
structure BodyRun where
  fixtures : Fixtures
  collectives : List Collective
  outcome : Outcome
deriving DecidableEq, Repr

/-- One entry of `TEST_CASE("Support for serial and parallel runs")` (lines 46 to 104). -/
def testBody (e : Entry) (fx : Fixtures) : BodyRun :=
  -- if (Pstream::parRun()) { ... modifyTimePaths(runTime, true, procPath); }
  let time := pathOverrideStep e.parRun e.myProcNo fx.runTime
  -- resetMeshPointer(runTime, meshPtr, fvMesh, fvMesh::defaultRegion);
  match resetMeshPointer e.readMesh time fx.meshPtr defaultRegion with
  | .error _ => ⟨⟨time, fx.meshPtr⟩, [], Outcome.fatalError⟩
  | .ok meshPtr =>
    -- auto& mesh = meshPtr();
    match meshPtr with
    | none => ⟨⟨time, meshPtr⟩, [], Outcome.fatalError⟩
    | some mesh =>
      -- SECTION("Decomposed mesh in parallel runs")
      let first :=
        if e.enterDecomposedMesh then decomposedMeshSection e.parRun mesh e.remoteCells
        else ⟨[], none⟩
      match first.failed with
      | some expression =>
        ⟨⟨time, meshPtr⟩, first.collectives, Outcome.requireFailed expression⟩
      | none =>
        -- auto param = GENERATE( range(1,4) );
        -- SECTION("Volume field creation")
        let second :=
          if e.enterVolumeField then volumeFieldSection e.param e.gMaxVf e.gMinVf
          else ⟨[], none⟩
        match second.failed with
        | some expression =>
          ⟨⟨time, meshPtr⟩, first.collectives ++ second.collectives,
            Outcome.requireFailed expression⟩
        | none =>
          -- meshPtr.clear();
          ⟨⟨time, autoPtr.clear meshPtr⟩, first.collectives ++ second.collectives,
            Outcome.completed⟩

/-- Whether a run of the body issued the cell-count reduction. -/
def BodyRun.issuesCellCountReduction (r : BodyRun) : Bool :=
  r.collectives.any Collective.isCellCountReduction

/-- A case on disk whose every readable path holds a mesh of four cells. -/
def fourCellCase : TimePaths → String → Option fvMesh :=
  fun _ _ => some ⟨4⟩

/-- Rank 0 of a group of two over a decomposition that puts all four cells on rank 0: the
other rank contributes no cells to the sum. -/
def lopsidedEntry : Entry :=
  ⟨true, 0, fourCellCase, 0, true, false, 1, 1, 1⟩

/-- Rank `r` of a parallel group over an even decomposition, entering the first section. -/
def parallelEntry (r : Nat) : Entry :=
  ⟨true, r, fourCellCase, 4, true, false, 1, 1, 1⟩

/-- A case on disk that holds the directory `processor0` (a mesh of four cells) and no other
processor directory. -/
def onlyProcessor0Case : TimePaths → String → Option fvMesh :=
  fun time _ => if time.case_ = "processor0" then some ⟨4⟩ else none

/-- Rank `r` of a parallel group run on `onlyProcessor0Case`, entering the first section. -/
def partialCaseEntry (r : Nat) : Entry :=
  ⟨true, r, onlyProcessor0Case, 4, true, false, 1, 1, 1⟩

/-- A serial entry that enters the second section with the generated value `2`. -/
def serialEntry : Entry :=
  ⟨false, 0, fourCellCase, 0, false, true, 2, 2, 2⟩

end FoamUT

namespace FoamUT

theorem main_comm_cases (session : Session) (argv : List String) :
    ((main session argv).comm = [] ∧
        ¬ ((session.applyCommandLine argv).1 = 0 ∧ (session.applyCommandLine argv).2 = true)) ∨
    ((main session argv).comm = [CommCall.init argv false] ∧
        (main session argv).exitCode = none ∧
        session.run argv [CommCall.init argv false] = none ∧
        (session.applyCommandLine argv).1 = 0 ∧ (session.applyCommandLine argv).2 = true) ∨
    ((main session argv).comm = [CommCall.init argv false, CommCall.finalize] ∧
        (main session argv).exitCode = session.run argv [CommCall.init argv false] ∧
        (∃ err, session.run argv [CommCall.init argv false] = some err) ∧
        (session.applyCommandLine argv).1 = 0 ∧ (session.applyCommandLine argv).2 = true) := by
  unfold main
  by_cases hres : (session.applyCommandLine argv).1 = 0
  · cases hpar : (session.applyCommandLine argv).2
    · cases hrun : session.run argv [] <;> simp [hres, hpar, hrun]
    · cases hrun : session.run argv [CommCall.init argv false] <;> simp [hres, hpar, hrun]
  · simp [hres]

theorem main_exitCode_of_parse_ok (session : Session) (argv : List String)
    (hres : (session.applyCommandLine argv).1 = 0) :
    (main session argv).ranTests = true ∧
    (main session argv).exitCode
      = session.run argv
          (if (session.applyCommandLine argv).2 then [CommCall.init argv false] else []) := by
  unfold main
  cases hpar : (session.applyCommandLine argv).2
  · cases hrun : session.run argv [] <;> simp [hres, hpar, hrun]
  · cases hrun : session.run argv [CommCall.init argv false] <;> simp [hres, hpar, hrun]

/-! ### The driver -/

/-- C1: in one execution of `main`, whatever the argument vector and however the engine's run
loop ends, `init` is called at most once, `finalize` is called at most once, and every
`finalize` call comes after an `init` call of the same execution. -/
theorem main_init_finalize_at_most_once (session : Session) (argv : List String) :
    (main session argv).comm.countP CommCall.isInit ≤ 1 ∧
    (main session argv).comm.countP CommCall.isFinalize ≤ 1 ∧
    ∀ pre post, (main session argv).comm = pre ++ CommCall.finalize :: post →
      ∃ c ∈ pre, c.isInit = true := by
  rcases main_comm_cases session argv with ⟨h, _⟩ | ⟨h, _⟩ | ⟨h, _⟩
  · rw [h]
    refine ⟨by simp, by simp, ?_⟩
    intro pre post hsplit
    simp at hsplit
  · rw [h]
    refine ⟨by simp [CommCall.isInit], by simp [CommCall.isFinalize], ?_⟩
    intro pre post hsplit
    cases pre with
    | nil => simp at hsplit
    | cons a rest => simp at hsplit
  · rw [h]
    refine ⟨by simp [CommCall.isInit], by simp [CommCall.isFinalize], ?_⟩
    intro pre post hsplit
    cases pre with
    | nil => simp at hsplit
    | cons a rest =>
      simp only [List.cons_append, List.cons.injEq] at hsplit
      exact ⟨a, List.mem_cons_self _ _, by rw [← hsplit.1]; rfl⟩

/-- Instance of C1 on a parallel run of the sample session. -/
theorem main_init_finalize_at_most_once_witness :
    (main sampleSession ["testDriver", "-p"]).comm.countP CommCall.isInit ≤ 1 ∧
    (main sampleSession ["testDriver", "-p"]).comm.countP CommCall.isFinalize ≤ 1 ∧
    ∀ pre post, (main sampleSession ["testDriver", "-p"]).comm
        = pre ++ CommCall.finalize :: post → ∃ c ∈ pre, c.isInit = true :=
  main_init_finalize_at_most_once sampleSession ["testDriver", "-p"]

/-- C2, as stated, fails: in a parallel run whose run loop is left by an exception, `init`
has been called, `main` is left without returning a code and `finalize` is never called. -/
theorem main_exception_skips_finalize :
    (main throwingSession ["testDriver", "-p"]).comm
      = [CommCall.init ["testDriver", "-p"] false] ∧
    CommCall.finalize ∉ (main throwingSession ["testDriver", "-p"]).comm ∧
    (main throwingSession ["testDriver", "-p"]).ranTests = true ∧
    (main throwingSession ["testDriver", "-p"]).exitCode = none := by
  decide

/-- C2, amended: once `init` has been called, for every result code (zero or non-zero) that
the run loop returns, `main` calls `finalize` before it returns: the calls of the execution
are exactly `init` then `finalize` and `main` returns that code; and whenever `main` returns
after an `init`, `finalize` was the last call and the code is the run loop's. -/
theorem main_finalizes_after_init (session : Session) (argv : List String)
    (hinit : ∃ c ∈ (main session argv).comm, c.isInit = true) :
    (∀ code, session.run argv [CommCall.init argv false] = some code →
      (main session argv).comm = [CommCall.init argv false, CommCall.finalize] ∧
      (main session argv).comm.getLast? = some CommCall.finalize ∧
      (main session argv).exitCode = some code) ∧
    (∀ code, (main session argv).exitCode = some code →
      (main session argv).comm = [CommCall.init argv false, CommCall.finalize] ∧
      (main session argv).comm.getLast? = some CommCall.finalize ∧
      session.run argv [CommCall.init argv false] = some code) := by
  rcases main_comm_cases session argv with ⟨h, _⟩ | ⟨_, hexit, hrun, _⟩ | ⟨h, hexit, _, _⟩
  · obtain ⟨c, hc, _⟩ := hinit
    rw [h] at hc
    simp at hc
  · constructor
    · intro code hcode
      rw [hrun] at hcode
      cases hcode
    · intro code hcode
      rw [hexit] at hcode
      cases hcode
  · constructor
    · intro code hcode
      exact ⟨h, by rw [h]; rfl, by rw [hexit, hcode]⟩
    · intro code hcode
      exact ⟨h, by rw [h]; rfl, by rw [← hexit, hcode]⟩

/-- Instance of amended C2: the sample session run with `-p`, whose run loop reports the
failure code `3`. -/
theorem main_finalizes_after_init_witness :
    (main sampleSession ["testDriver", "-p"]).comm
        = [CommCall.init ["testDriver", "-p"] false, CommCall.finalize] ∧
    (main sampleSession ["testDriver", "-p"]).comm.getLast? = some CommCall.finalize ∧
    (main sampleSession ["testDriver", "-p"]).exitCode = some 3 :=
  (main_finalizes_after_init sampleSession ["testDriver", "-p"]
    ⟨CommCall.init ["testDriver", "-p"] false, by decide, rfl⟩).1 3 rfl

/-- C3, as stated, fails: on an argument vector the parser rejects, `main` returns the
parser's code 255 without invoking the run loop, whose result would have been 0. -/
theorem main_exit_code_parse_failure :
    (main rejectingSession ["testDriver", "--no-such-option"]).exitCode = some 255 ∧
    (main rejectingSession ["testDriver", "--no-such-option"]).ranTests = false ∧
    rejectingSession.run ["testDriver", "--no-such-option"] [] = some 0 ∧
    (main rejectingSession ["testDriver", "--no-such-option"]).exitCode
      ≠ rejectingSession.run ["testDriver", "--no-such-option"] [] := by
  decide

/-- C3, amended: when `applyCommandLine` returns 0, `main` invokes the run loop and returns
exactly its value, with or without the `init` and `finalize` calls, so the exit code is 0
exactly when the run loop reports 0; when `applyCommandLine` returns a non-zero result,
`main` returns that result and the run loop is not invoked. -/
theorem main_exit_code_is_run_result (session : Session) (argv : List String) :
    ((session.applyCommandLine argv).1 = 0 →
      (main session argv).ranTests = true ∧
      (main session argv).exitCode
        = session.run argv
            (if (session.applyCommandLine argv).2 then [CommCall.init argv false] else []) ∧
      (∀ code,
        session.run argv
            (if (session.applyCommandLine argv).2 then [CommCall.init argv false] else [])
          = some code → (main session argv).exitCode = some code) ∧
      ((main session argv).exitCode = some 0 ↔
        session.run argv
            (if (session.applyCommandLine argv).2 then [CommCall.init argv false] else [])
          = some 0)) ∧
    ((session.applyCommandLine argv).1 ≠ 0 →
      (main session argv).ranTests = false ∧
      (main session argv).exitCode = some (session.applyCommandLine argv).1) := by
  constructor
  · intro hres
    obtain ⟨hran, hexit⟩ := main_exitCode_of_parse_ok session argv hres
    exact ⟨hran, hexit, fun code hcode => by rw [hexit, hcode], by rw [hexit]⟩
  · intro hres
    unfold main
    simp [hres]

/-- Instance of amended C3: the sample session (parse succeeds, run loop reports `3`) and the
rejecting session (parse fails with 255). -/
theorem main_exit_code_is_run_result_witness :
    (main sampleSession ["testDriver", "-p"]).exitCode = some 3 ∧
    (main rejectingSession ["testDriver"]).exitCode = some 255 :=
  ⟨((main_exit_code_is_run_result sampleSession ["testDriver", "-p"]).1 rfl).2.1,
   ((main_exit_code_is_run_result rejectingSession ["testDriver"]).2 (by decide)).2⟩

/-- C4: `init` is called exactly when command-line parsing succeeded and the parser set the
parallel flag; if the flag is unset or `applyCommandLine` returned non-zero, neither `init`
nor `finalize` is called, and in the second case `main` returns the parser's result without
running any test. -/
theorem main_init_iff_parallel_flag (session : Session) (argv : List String) :
    ((∃ c ∈ (main session argv).comm, c.isInit = true) ↔
      ((session.applyCommandLine argv).1 = 0 ∧ (session.applyCommandLine argv).2 = true)) ∧
    (((session.applyCommandLine argv).2 = false ∨ (session.applyCommandLine argv).1 ≠ 0) →
      (main session argv).comm = []) ∧
    ((session.applyCommandLine argv).1 ≠ 0 →
      (main session argv).exitCode = some (session.applyCommandLine argv).1 ∧
      (main session argv).ranTests = false) := by
  refine ⟨?_, ?_, ?_⟩
  · rcases main_comm_cases session argv with ⟨h, hn⟩ | ⟨h, _, _, hy⟩ | ⟨h, _, _, hy⟩
    · rw [h]
      constructor
      · rintro ⟨c, hc, _⟩
        simp at hc
      · intro hy
        exact absurd hy hn
    · rw [h]
      constructor
      · intro _
        exact hy
      · intro _
        exact ⟨CommCall.init argv false, List.mem_cons_self _ _, rfl⟩
    · rw [h]
      constructor
      · intro _
        exact hy
      · intro _
        exact ⟨CommCall.init argv false, List.mem_cons_self _ _, rfl⟩
  · intro hcond
    rcases main_comm_cases session argv with
      ⟨h, _⟩ | ⟨_, _, _, hres, hpar⟩ | ⟨_, _, _, hres, hpar⟩
    · exact h
    · rcases hcond with hflag | hfail
      · rw [hpar] at hflag
        cases hflag
      · exact absurd hres hfail
    · rcases hcond with hflag | hfail
      · rw [hpar] at hflag
        cases hflag
      · exact absurd hres hfail
  · intro hres
    unfold main
    simp [hres]

/-- Instance of C4: without `-p` the sample session makes no communication call; the
rejecting session makes none and returns 255. -/
theorem main_init_iff_parallel_flag_witness :
    (main sampleSession ["testDriver"]).comm = [] ∧
    (main rejectingSession ["testDriver", "-p"]).exitCode = some 255 ∧
    (main rejectingSession ["testDriver", "-p"]).ranTests = false :=
  ⟨(main_init_iff_parallel_flag sampleSession ["testDriver"]).2.1 (Or.inl (by decide)),
   (main_init_iff_parallel_flag rejectingSession ["testDriver", "-p"]).2.2 (by decide)⟩

/-! ### Decimal rank names -/

theorem digitValue_digitChar (k : Nat) (hk : k < 10) : digitValue (Nat.digitChar k) = k := by
  interval_cases k <;> rfl

theorem decimalValue_toDigitsCore (fuel : Nat) :
    ∀ n acc, n < fuel →
      decimalValue (Nat.toDigitsCore 10 fuel n acc) 0 = decimalValue acc n := by
  induction fuel with
  | zero => intro n acc h; omega
  | succ fuel ih =>
    intro n acc h
    unfold Nat.toDigitsCore
    by_cases hq : n / 10 = 0
    · simp only [hq, if_true]
      have hn : n < 10 := by omega
      have hm : n % 10 = n := Nat.mod_eq_of_lt hn
      simp only [decimalValue, List.foldl, hm, digitValue_digitChar n hn]
      simp
    · simp only [hq, if_false]
      rw [ih (n / 10) _ (by omega)]
      simp only [decimalValue, List.foldl,
        digitValue_digitChar (n % 10) (Nat.mod_lt _ (by norm_num))]
      congr 1
      omega

theorem decimalValue_name (r : Nat) : decimalValue (name r).data 0 = r := by
  have h := decimalValue_toDigitsCore (r + 1) r [] (by omega)
  simpa [name, Nat.repr, Nat.toDigits, List.asString, decimalValue] using h

theorem name_injective (a b : Nat) (h : name a = name b) : a = b := by
  have ha := decimalValue_name a
  rw [h, decimalValue_name b] at ha
  exact ha.symm

theorem procPath_injective (a b : Nat) (h : procPath a = procPath b) : a = b := by
  apply name_injective
  have hdata := congrArg String.data h
  simp only [procPath, String.data_append] at hdata
  exact String.ext (List.append_cancel_left hdata)

/-! ### The path override -/

/-- C5: in parallel mode, for every rank `r` and every prior state of the time fixture, after
the path-override step `processorCase_` is true and `case_` is `"processor"` followed by the
decimal representation of `r` (its digits read back give `r`); the two fields do not depend
on the prior state. -/
theorem pathOverrideStep_parallel (r : Nat) (t t' : TimePaths) :
    (pathOverrideStep true r t).processorCase_ = true ∧
    (pathOverrideStep true r t).case_ = "processor" ++ Nat.repr r ∧
    decimalValue (Nat.repr r).data 0 = r ∧
    (pathOverrideStep true r t).processorCase_ = (pathOverrideStep true r t').processorCase_ ∧
    (pathOverrideStep true r t).case_ = (pathOverrideStep true r t').case_ :=
  ⟨rfl, rfl, decimalValue_name r, rfl, rfl⟩

/-- C6: the per-process subdirectory name depends on the rank alone and is collision-free:
for every group size `K > 1` and ranks `r₁ r₂ < K`, the names are equal exactly when the
ranks are. -/
theorem procPath_collision_free (K : Nat) (_hK : 1 < K) (r₁ r₂ : Nat)
    (_h₁ : r₁ < K) (_h₂ : r₂ < K) :
    procPath r₁ = procPath r₂ ↔ r₁ = r₂ :=
  ⟨procPath_injective r₁ r₂, fun h => by rw [h]⟩

/-- Instance of C6: the two ranks of a group of size two. -/
theorem procPath_collision_free_witness :
    (1 < 2 ∧ 0 < 2 ∧ 1 < 2) ∧ (procPath 0 = procPath 1 ↔ 0 = 1) :=
  ⟨by decide, procPath_collision_free 2 (by decide) 0 1 (by decide) (by decide)⟩

/-- C7: when parallel mode is not active, the path-override step is the identity on the time
fixture, for every prior state: `case_` and `processorCase_` are unchanged; on the fixture
built by `createTestTime.H` the flag stays `false` and the case name stays the root case
name, so no processor subdirectory is introduced. -/
theorem pathOverrideStep_serial_identity (r : Nat) (t : TimePaths) :
    pathOverrideStep false r t = t ∧
    (pathOverrideStep false r t).case_ = t.case_ ∧
    (pathOverrideStep false r t).processorCase_ = t.processorCase_ ∧
    (pathOverrideStep false r runTime).processorCase_ = false ∧
    (pathOverrideStep false r runTime).case_ = ROOT_CASENAME :=
  ⟨rfl, rfl, rfl, rfl, rfl⟩

/-- C8: accessor round trip for both stolen fields: after `modifyTimePaths t b n` the
`processorCase_` accessor reads `b` and the `case_` accessor reads `n`, as do the fields
themselves; a write through one accessor does not change what the other reads; and the two
accessors opened by `prepareTimePaths` on `TimePaths` have distinct descriptors. -/
theorem modifyTimePaths_round_trip (t : TimePaths) (b : Bool) (n : String) :
    prepareTimePaths.2.read (modifyTimePaths t b n) = b ∧
    prepareTimePaths.1.read (modifyTimePaths t b n) = n ∧
    (modifyTimePaths t b n).processorCase_ = b ∧
    (modifyTimePaths t b n).case_ = n ∧
    prepareTimePaths.1.read (prepareTimePaths.2.write t b) = prepareTimePaths.1.read t ∧
    prepareTimePaths.2.read (prepareTimePaths.1.write t n) = prepareTimePaths.2.read t ∧
    prepareTimePaths.1.descriptor.enclosing = prepareTimePaths.2.descriptor.enclosing ∧
    preparedDescriptors.Nodup :=
  ⟨rfl, rfl, rfl, rfl, rfl, rfl, rfl, by decide⟩

/-! ### The test body -/

theorem testBody_completed_clears_slot (e : Entry) (fx : Fixtures)
    (h : (testBody e fx).outcome = Outcome.completed) :
    (testBody e fx).fixtures.meshPtr = none := by
  revert h
  unfold testBody
  dsimp only
  repeat' split
  all_goals intro h
  all_goals first
    | rfl
    | exact absurd h (by simp)

theorem testBody_serialEntry :
    serialEntry.param ∈ generatedParams ∧
    testBody serialEntry ⟨runTime, none⟩
      = ⟨⟨runTime, none⟩, [Collective.gMax, Collective.gMin], Outcome.completed⟩ := by
  decide

theorem testBody_fatalError_keeps_slot (e : Entry) (fx : Fixtures)
    (hread : e.readMesh (pathOverrideStep e.parRun e.myProcNo fx.runTime) defaultRegion
      = none) :
    (testBody e fx).outcome = Outcome.fatalError ∧
    (testBody e fx).fixtures.meshPtr = fx.meshPtr := by
  unfold testBody resetMeshPointer
  simp [hread]

/-- C9 fails on the code: rank 0 of a parallel group whose decomposition leaves the other
rank without cells enters the first section, `REQUIRE(mesh.nCells() < gNCells)` fails, the
body is left through the exception and the mesh slot still holds the mesh. -/
theorem testBody_failed_require_keeps_mesh :
    (testBody lopsidedEntry ⟨runTime, none⟩).outcome
      = Outcome.requireFailed "mesh.nCells() < gNCells" ∧
    (testBody lopsidedEntry ⟨runTime, none⟩).fixtures.meshPtr = some ⟨4⟩ ∧
    (testBody lopsidedEntry ⟨runTime, none⟩).fixtures.meshPtr ≠ none := by
  decide

theorem testBody_collectives_of_read (e : Entry) (fx : Fixtures) (m : fvMesh)
    (hread : e.readMesh (pathOverrideStep e.parRun e.myProcNo fx.runTime) defaultRegion
      = some m)
    (henter : e.enterDecomposedMesh = true) :
    (testBody e fx).issuesCellCountReduction = e.parRun := by
  unfold BodyRun.issuesCellCountReduction testBody resetMeshPointer
  simp only [hread, henter, autoPtr.reset, if_true]
  cases hpar : e.parRun
  · simp only [decomposedMeshSection, Bool.false_eq_true, if_false]
    by_cases hv : e.enterVolumeField = true
    · simp only [hv, if_true, volumeFieldSection]
      by_cases h1 : e.gMaxVf = e.param
      · by_cases h2 : e.gMinVf = e.param
        · simp [h1, h2, Collective.isCellCountReduction]
        · simp [h1, h2, Collective.isCellCountReduction]
      · simp [h1, Collective.isCellCountReduction]
    · simp [hv]
  · simp only [decomposedMeshSection, if_true]
    by_cases hlt : m.nCells < m.nCells + e.remoteCells
    · simp only [hlt, if_true]
      by_cases hv : e.enterVolumeField = true
      · simp only [hv, if_true, volumeFieldSection]
        by_cases h1 : e.gMaxVf = e.param
        · by_cases h2 : e.gMinVf = e.param
          · simp [h1, h2, Collective.isCellCountReduction]
          · simp [h1, h2, Collective.isCellCountReduction]
        · simp [h1, Collective.isCellCountReduction]
      · simp [hv, Collective.isCellCountReduction]
    · simp [hlt, Collective.isCellCountReduction]

/-- C10, as stated, fails: ranks 0 and 1 of one parallel group run the body on a case that
holds `processor0` only.  Rank 0 loads its mesh, enters the section and issues the reduction;
the mesh read of rank 1 raises a fatal error, rank 1 leaves the body before the section and
issues no collective, so only one of the two ranks issues the reduction. -/
theorem cell_count_reduction_partial_participation :
    (partialCaseEntry 0).parRun = true ∧ (partialCaseEntry 1).parRun = true ∧
    (testBody (partialCaseEntry 0) ⟨runTime, none⟩).fixtures.runTime.case_ = "processor0" ∧
    (testBody (partialCaseEntry 0) ⟨runTime, none⟩).collectives
      = [Collective.returnReduceSum 4] ∧
    testBody (partialCaseEntry 1) ⟨runTime, none⟩
      = ⟨⟨⟨true, "", "processor1", "system", "constant"⟩, none⟩, [], Outcome.fatalError⟩ ∧
    (testBody (partialCaseEntry 0) ⟨runTime, none⟩).issuesCellCountReduction = true ∧
    (testBody (partialCaseEntry 1) ⟨runTime, none⟩).issuesCellCountReduction = false := by
  decide

/-- C10, amended: the guard of the cell-count reduction depends on the parallel-mode flag
only: two processes of one group (same flag) with any ranks, meshes and fixture states that
both load their mesh and enter the section "Decomposed mesh in parallel runs" either both
issue the reduction or neither does, and in parallel mode both do. -/
theorem cell_count_reduction_group_uniform (e₁ e₂ : Entry) (fx₁ fx₂ : Fixtures)
    (m₁ m₂ : fvMesh)
    (hgroup : e₁.parRun = e₂.parRun)
    (hread₁ : e₁.readMesh (pathOverrideStep e₁.parRun e₁.myProcNo fx₁.runTime) defaultRegion
      = some m₁)
    (hread₂ : e₂.readMesh (pathOverrideStep e₂.parRun e₂.myProcNo fx₂.runTime) defaultRegion
      = some m₂)
    (henter₁ : e₁.enterDecomposedMesh = true) (henter₂ : e₂.enterDecomposedMesh = true) :
    (testBody e₁ fx₁).issuesCellCountReduction = (testBody e₂ fx₂).issuesCellCountReduction ∧
    (e₁.parRun = true →
      (testBody e₁ fx₁).issuesCellCountReduction = true ∧
      (testBody e₂ fx₂).issuesCellCountReduction = true) := by
  have h₁ := testBody_collectives_of_read e₁ fx₁ m₁ hread₁ henter₁
  have h₂ := testBody_collectives_of_read e₂ fx₂ m₂ hread₂ henter₂
  refine ⟨by rw [h₁, h₂, hgroup], ?_⟩
  intro hpar
  exact ⟨by rw [h₁, hpar], by rw [h₂, ← hgroup, hpar]⟩

/-- Instance of amended C10: ranks 0 and 1 of a parallel group, the first over the lopsided
decomposition (its `REQUIRE` fails), the second over an even one (its `REQUIRE` passes). -/
theorem cell_count_reduction_group_uniform_witness :
    (testBody lopsidedEntry ⟨runTime, none⟩).issuesCellCountReduction
      = (testBody (parallelEntry 1) ⟨runTime, none⟩).issuesCellCountReduction ∧
    (lopsidedEntry.parRun = true →
      (testBody lopsidedEntry ⟨runTime, none⟩).issuesCellCountReduction = true ∧
      (testBody (parallelEntry 1) ⟨runTime, none⟩).issuesCellCountReduction = true) :=
  cell_count_reduction_group_uniform lopsidedEntry (parallelEntry 1) ⟨runTime, none⟩
    ⟨runTime, none⟩ ⟨4⟩ ⟨4⟩ rfl rfl rfl rfl rfl

end FoamUT
